import Mathlib

/-!
# Verification of the implot-rs wrapper layer

Shallow embedding of the Rust wrapper code in `src/lib.rs`, `src/plot.rs`
and `src/plot_elements.rs` of the `implot-rs` repository.

Modelling conventions:
* `f32` / `f64` values are carried opaquely; we model them as `Rat`.  No claim
  depends on floating-point arithmetic semantics; doubles only appear as
  payload passed through to the foreign interface (the one computation, the
  heatmap scale fold, is modelled with `min`/`max` on `Rat` and no claim
  inspects its numeric result).
* Rust strings are byte lists (`List Nat`); `CString` keeps the bytes without
  the terminating null, and `CString.new` fails exactly when an interior null
  byte is present, mirroring `std::ffi::CString::new`.
* A Rust `panic!` is modelled as `Except.error` with a `PanicKind` payload.
* Calls against the foreign interface (`implot_sys`) are recorded as values of
  the `FCall` trace type; a wrapper operation is a pure function returning its
  result together with the list of foreign calls it issues, in order.
* `Rc<RefCell<ImPlotRange>>` linked-limit cells are modelled by a cell
  identifier (`Nat`); the foreign call records which cell's pointers were
  passed (null pointers are recorded as `none`).
* The response of the native library to `ImPlot_BeginPlot` is an input
  (`shouldRender : Bool`) of the embedded `Plot.begin`.
-/

namespace Implot

/-- Model of an IEEE double used purely as an opaque payload. -/
abbrev F64 := Rat

/-- Model of an IEEE single used purely as an opaque payload. -/
abbrev F32 := Rat

/-- Panic outcomes of the wrapper code. -/
inductive PanicKind where
  /-- `CString::new` failed: the string has an interior null byte. -/
  | nullByte : PanicKind
  /-- Slice indexing out of bounds (`values[0]` on an empty slice). -/
  | indexOutOfBounds : PanicKind
  /-- A style stack token was popped twice. -/
  | doublePop : PanicKind
deriving DecidableEq

/-- `std::ffi::CString`: bytes without the terminating null. -/
structure CString where
  bytes : List Nat
deriving DecidableEq

/-- `CString::new`: fails if and only if an interior null byte is present. -/
def CString.new (s : List Nat) : Except PanicKind CString :=
  if s.contains 0 then .error .nullByte else .ok ⟨s⟩

/-- A `CString` is valid when it has no interior null bytes. -/
def CString.valid (c : CString) : Prop := c.bytes.contains 0 = false

instance (c : CString) : Decidable c.valid := by
  unfold CString.valid; infer_instance

/-- The null-terminated byte string that `CString::as_ptr` exposes. -/
def CString.withTerminator (c : CString) : List Nat := c.bytes ++ [0]

/-- `sys::ImPlotRange`. -/
structure ImPlotRange where
  Min : F64
  Max : F64
deriving DecidableEq

/-- `sys::ImPlotPoint`. -/
structure ImPlotPoint where
  X : F64
  Y : F64
deriving DecidableEq

-- Constants from `lib.rs`.
def NUMBER_OF_X_AXES : Nat := 3
def NUMBER_OF_Y_AXES : Nat := 3

/-- The `Axis` enum from `lib.rs` (discriminants 0..5, X axes first). -/
inductive Axis where
  | X1 | X2 | X3 | Y1 | Y2 | Y3
deriving DecidableEq

/-- Numeric discriminant of an `Axis` (the `ImAxis` value). -/
def Axis.val : Axis → Nat
  | .X1 => 0
  | .X2 => 1
  | .X3 => 2
  | .Y1 => 3
  | .Y2 => 4
  | .Y3 => 5

/-- Inverse of `Axis.val`, modelling the `transmute` in the index-to-axis
functions; only ever applied to values `< 6` by the source. -/
def Axis.ofVal : Nat → Axis
  | 0 => .X1
  | 1 => .X2
  | 2 => .X3
  | 3 => .Y1
  | 4 => .Y2
  | _ => .Y3

/-- `get_x_axis_index` from `lib.rs`: the derived `Ord` on `Axis` compares
discriminants, so `a < Axis::Y1` is `a.val < 3`. -/
def get_x_axis_index (axis : Axis) : Option Nat :=
  if axis.val < Axis.Y1.val then some axis.val else none

/-- `get_y_axis_index` from `lib.rs`: `a > Axis::X3` is `a.val > 2`. -/
def get_y_axis_index (axis : Axis) : Option Nat :=
  if Axis.X3.val < axis.val then some (axis.val - NUMBER_OF_X_AXES) else none

/-- `get_x_axis_from_index` from `lib.rs`. -/
def get_x_axis_from_index (index : Nat) : Option Axis :=
  if index < NUMBER_OF_X_AXES then some (Axis.ofVal index) else none

/-- `get_y_axis_from_index` from `lib.rs`. -/
def get_y_axis_from_index (index : Nat) : Option Axis :=
  if index < NUMBER_OF_Y_AXES then some (Axis.ofVal (index + NUMBER_OF_X_AXES)) else none

/-- Trace entries: one constructor per foreign (`implot_sys`) function the
modelled wrapper code can call, with the arguments the wrapper passes.
Strings are recorded as the pointed-to bytes (without terminator), linked
limit cells by their identifier (`none` encodes a null pointer pair). -/
inductive FCall where
  | setNextAxisLimits (axis : Nat) (limMin limMax : F64) (cond : Nat)
  | setNextAxisLinks (axis : Nat) (cell : Option Nat)
  | setupAxisTicks (axis : Nat) (positions : List F64)
      (labels : Option (List (List Nat))) (showDefault : Bool)
  | beginPlot (title : List Nat) (sizeX sizeY : F32) (flags : Nat)
  | setupAxis (axis : Nat) (label : List Nat) (flags : Nat)
  | setupLegend (location : Nat) (flags : Nat)
  | endPlot
  | plotLine (label : List Nat) (x y : List F64) (count : Nat)
      (flags : Nat) (offset stride : Nat)
  | plotStairs (label : List Nat) (x y : List F64) (count : Nat)
      (flags : Nat) (offset stride : Nat)
  | plotScatter (label : List Nat) (x y : List F64) (count : Nat)
      (flags : Nat) (offset stride : Nat)
  | plotBars (label : List Nat) (x y : List F64) (count : Nat)
      (barWidth : F64) (flags : Nat) (offset stride : Nat)
  | plotStems (label : List Nat) (x y : List F64) (count : Nat)
      (referenceY : F64) (flags : Nat) (offset stride : Nat)
  | plotText (label : List Nat) (x y : F64) (pixOffX pixOffY : F32) (flags : Nat)
  | plotHeatmap (label : List Nat) (values : List F64) (rows cols : Nat)
      (scaleMin scaleMax : F64) (labelFmt : Option (List Nat))
      (boundsMin boundsMax : ImPlotPoint) (flags : Nat)
  | pushStyleColor (element : Nat) (red green blue alpha : F32)
  | pushStyleVarF32 (element : Nat) (value : F32)
  | pushStyleVarI32 (element : Nat) (value : Int)
  | pushStyleVarImVec2 (element : Nat) (valueX valueY : F32)
  | popStyleColor (count : Nat)
  | popStyleVar (count : Nat)
deriving DecidableEq

/-- A fixed-size-3 array, modelling the `[T; NUMBER_OF_X_AXES]` fields. -/
structure Triple (α : Type) where
  a0 : α
  a1 : α
  a2 : α
deriving DecidableEq

/-- Read entry `i` of a `Triple`. -/
def Triple.get (t : Triple α) : Fin 3 → α
  | 0 => t.a0
  | 1 => t.a1
  | 2 => t.a2

/-- Write entry `i` of a `Triple`. -/
def Triple.set (t : Triple α) : Fin 3 → α → Triple α
  | 0, x => { t with a0 := x }
  | 1, x => { t with a1 := x }
  | 2, x => { t with a2 := x }

/-- A `Triple` with all three entries equal (`[v; 3]`). -/
def Triple.const (x : α) : Triple α := ⟨x, x, x⟩

/-- `AxisLimitSpecification` from `plot.rs`.  The `Rc<RefCell<ImPlotRange>>`
of the `Linked` variant is modelled by a cell identifier. -/
inductive AxisLimitSpecification where
  | Single (limits : ImPlotRange) (condition : Nat)
  | Linked (cell : Nat)
deriving DecidableEq

-- Constants from `plot.rs`.
def DEFAULT_PLOT_SIZE_X : F32 := 400
def DEFAULT_PLOT_SIZE_Y : F32 := 400

/-- The `Plot` builder struct from `plot.rs`.  Flag bitsets and `Condition`
values are carried as their numeric bits (`Nat`), which is all the wrapper
does with them. -/
structure Plot where
  title : CString
  size : F32 × F32
  x_label : CString
  y_label : CString
  x_limits : Triple (Option AxisLimitSpecification)
  y_limits : Triple (Option AxisLimitSpecification)
  x_tick_positions : Triple (Option (List F64))
  x_tick_labels : Triple (Option (List CString))
  show_x_default_ticks : Triple Bool
  y_tick_positions : Triple (Option (List F64))
  y_tick_labels : Triple (Option (List CString))
  show_y_default_ticks : Triple Bool
  legend_configuration : Option (Nat × Nat)
  plot_flags : Nat
  x_flags : Triple Nat
  y_flags : Triple Nat
deriving DecidableEq

/-- An index produced by `get_x_axis_index` is in bounds for the
3-element axis arrays. -/
theorem get_x_axis_index_lt {axis : Axis} {i : Nat}
    (h : get_x_axis_index axis = some i) : i < 3 := by
  cases axis <;> simp [get_x_axis_index, Axis.val] at h <;> omega

/-- An index produced by `get_y_axis_index` is in bounds for the
3-element axis arrays. -/
theorem get_y_axis_index_lt {axis : Axis} {i : Nat}
    (h : get_y_axis_index axis = some i) : i < 3 := by
  cases axis <;> simp [get_y_axis_index, NUMBER_OF_X_AXES, Axis.val] at h
  all_goals omega

/-- When `get_y_axis_index` succeeds, the recomputed index
`axis as usize - Axis::Y1 as usize` used by `linked_y_limits` is in bounds. -/
theorem y_axis_recomputed_lt {axis : Axis} {i : Nat}
    (h : get_y_axis_index axis = some i) : axis.val - Axis.Y1.val < 3 := by
  cases axis <;> simp [get_y_axis_index, Axis.val] at h ⊢

namespace Plot

/-- `Plot::new` from `plot.rs`: panics exactly when the title has an interior
null byte, otherwise fills in the defaults. -/
def new (title : List Nat) : Except PanicKind Plot := do
  let t ← CString.new title
  .ok {
    title := t
    size := (DEFAULT_PLOT_SIZE_X, DEFAULT_PLOT_SIZE_Y)
    x_label := ⟨[]⟩
    y_label := ⟨[]⟩
    x_limits := Triple.const none
    y_limits := Triple.const none
    x_tick_positions := Triple.const none
    x_tick_labels := Triple.const none
    show_x_default_ticks := Triple.const false
    y_tick_positions := Triple.const none
    y_tick_labels := Triple.const none
    show_y_default_ticks := Triple.const false
    legend_configuration := none
    plot_flags := 0
    x_flags := Triple.const 0
    y_flags := Triple.const 0
  }

/-- `Plot::size`.  Setters return the updated builder together with the
(empty) list of foreign calls their bodies issue. -/
def size' (p : Plot) (sz : F32 × F32) : Plot × List FCall :=
  ({ p with size := sz }, [])

/-- `Plot::x_label`: panics exactly on interior null bytes. -/
def x_label' (p : Plot) (label : List Nat) : Except PanicKind (Plot × List FCall) := do
  let c ← CString.new label
  .ok ({ p with x_label := c }, [])

/-- `Plot::y_label`: panics exactly on interior null bytes. -/
def y_label' (p : Plot) (label : List Nat) : Except PanicKind (Plot × List FCall) := do
  let c ← CString.new label
  .ok ({ p with y_label := c }, [])

/-- `Plot::x_limits`: stores a `Single` spec at the X-axis index, no-op for a
Y axis. -/
def x_limits' (p : Plot) (limits : ImPlotRange) (condition : Nat) (axis : Axis) :
    Plot × List FCall :=
  match h : get_x_axis_index axis with
  | some i =>
      let i3 : Fin 3 := ⟨i, get_x_axis_index_lt h⟩
      ({ p with x_limits := p.x_limits.set i3 (some (.Single limits condition)) }, [])
  | none => (p, [])

/-- `Plot::y_limits`: stores a `Single` spec at the Y-axis index, no-op for an
X axis. -/
def y_limits' (p : Plot) (limits : ImPlotRange) (condition : Nat) (axis : Axis) :
    Plot × List FCall :=
  match h : get_y_axis_index axis with
  | some i =>
      let i3 : Fin 3 := ⟨i, get_y_axis_index_lt h⟩
      ({ p with y_limits := p.y_limits.set i3 (some (.Single limits condition)) }, [])
  | none => (p, [])

/-- `Plot::linked_x_limits`: stores a `Linked` spec at the X-axis index. -/
def linked_x_limits (p : Plot) (cell : Nat) (axis : Axis) : Plot × List FCall :=
  match h : get_x_axis_index axis with
  | some i =>
      let i3 : Fin 3 := ⟨i, get_x_axis_index_lt h⟩
      ({ p with x_limits := p.x_limits.set i3 (some (.Linked cell)) }, [])
  | none => (p, [])

/-- `Plot::linked_y_limits`: guards on `get_y_axis_index`, then recomputes the
index as `axis as usize - Axis::Y1 as usize` exactly as the source does. -/
def linked_y_limits (p : Plot) (cell : Nat) (axis : Axis) : Plot × List FCall :=
  match h : get_y_axis_index axis with
  | some _ =>
      let i3 : Fin 3 := ⟨axis.val - Axis.Y1.val, y_axis_recomputed_lt h⟩
      ({ p with y_limits := p.y_limits.set i3 (some (.Linked cell)) }, [])
  | none => (p, [])

/-- `Plot::x_ticks`: stores positions and the show-default flag. -/
def x_ticks (p : Plot) (axis : Axis) (ticks : List F64) (showDefault : Bool) :
    Plot × List FCall :=
  match h : get_x_axis_index axis with
  | some i =>
      let i3 : Fin 3 := ⟨i, get_x_axis_index_lt h⟩
      ({ p with
          x_tick_positions := p.x_tick_positions.set i3 (some ticks)
          show_x_default_ticks := p.show_x_default_ticks.set i3 showDefault }, [])
  | none => (p, [])

/-- `Plot::y_ticks`: stores positions and the show-default flag. -/
def y_ticks (p : Plot) (axis : Axis) (ticks : List F64) (showDefault : Bool) :
    Plot × List FCall :=
  match h : get_y_axis_index axis with
  | some i =>
      let i3 : Fin 3 := ⟨i, get_y_axis_index_lt h⟩
      ({ p with
          y_tick_positions := p.y_tick_positions.set i3 (some ticks)
          show_y_default_ticks := p.show_y_default_ticks.set i3 showDefault }, [])
  | none => (p, [])

/-- Convert all tick labels of one call with `CString::new`, failing on the
first interior null byte (`Iterator::collect` into the panicking closure). -/
def collectTickLabels : List (F64 × List Nat) → Except PanicKind (List CString)
  | [] => .ok []
  | (_, s) :: rest => do
      let c ← CString.new s
      let cs ← collectTickLabels rest
      .ok (c :: cs)

/-- `Plot::x_ticks_with_labels`: for an X axis, stores positions, converted
labels (panicking on interior null bytes) and the show-default flag; for a Y
axis the body is skipped entirely. -/
def x_ticks_with_labels (p : Plot) (axis : Axis) (tickLabels : List (F64 × List Nat))
    (showDefault : Bool) : Except PanicKind (Plot × List FCall) :=
  match h : get_x_axis_index axis with
  | some i =>
      let i3 : Fin 3 := ⟨i, get_x_axis_index_lt h⟩
      do
        let labels ← collectTickLabels tickLabels
        .ok ({ p with
            x_tick_positions := p.x_tick_positions.set i3 (some (tickLabels.map (·.1)))
            x_tick_labels := p.x_tick_labels.set i3 (some labels)
            show_x_default_ticks := p.show_x_default_ticks.set i3 showDefault }, [])
  | none => .ok (p, [])

/-- `Plot::y_ticks_with_labels`: as `x_ticks_with_labels` for Y axes. -/
def y_ticks_with_labels (p : Plot) (axis : Axis) (tickLabels : List (F64 × List Nat))
    (showDefault : Bool) : Except PanicKind (Plot × List FCall) :=
  match h : get_y_axis_index axis with
  | some i =>
      let i3 : Fin 3 := ⟨i, get_y_axis_index_lt h⟩
      do
        let labels ← collectTickLabels tickLabels
        .ok ({ p with
            y_tick_positions := p.y_tick_positions.set i3 (some (tickLabels.map (·.1)))
            y_tick_labels := p.y_tick_labels.set i3 (some labels)
            show_y_default_ticks := p.show_y_default_ticks.set i3 showDefault }, [])
  | none => .ok (p, [])

/-- `Plot::with_plot_flags`. -/
def with_plot_flags (p : Plot) (flags : Nat) : Plot × List FCall :=
  ({ p with plot_flags := flags }, [])

/-- `Plot::with_x_axis_flags`. -/
def with_x_axis_flags (p : Plot) (axis : Axis) (flags : Nat) : Plot × List FCall :=
  match h : get_x_axis_index axis with
  | some i =>
      let i3 : Fin 3 := ⟨i, get_x_axis_index_lt h⟩
      ({ p with x_flags := p.x_flags.set i3 flags }, [])
  | none => (p, [])

/-- `Plot::with_y_axis_flags`. -/
def with_y_axis_flags (p : Plot) (axis : Axis) (flags : Nat) : Plot × List FCall :=
  match h : get_y_axis_index axis with
  | some i =>
      let i3 : Fin 3 := ⟨i, get_y_axis_index_lt h⟩
      ({ p with y_flags := p.y_flags.set i3 flags }, [])
  | none => (p, [])

/-- `Plot::with_legend_location`. -/
def with_legend_location (p : Plot) (location : Nat) (flags : Nat) : Plot × List FCall :=
  ({ p with legend_configuration := some (location, flags) }, [])

/-- The `ImPlot_SetNextAxisLimits` call issued for one axis slot of the
direct-limit loop in `maybe_set_axis_limits` (no call for `None`/`Linked`). -/
def directLimitCalls (axisVal : Nat) : Option AxisLimitSpecification → List FCall
  | some (.Single limits condition) =>
      [.setNextAxisLimits axisVal limits.Min limits.Max condition]
  | _ => []

/-- The `ImPlot_SetNextAxisLinks` call issued for one axis slot of the
linked-limit loop in `maybe_set_axis_limits` (null pointers unless the slot
holds a `Linked` spec); the loop calls this unconditionally for every slot. -/
def linkCall (axisVal : Nat) : Option AxisLimitSpecification → FCall
  | some (.Linked cell) => .setNextAxisLinks axisVal (some cell)
  | _ => .setNextAxisLinks axisVal none

/-- `Plot::maybe_set_axis_limits`: direct X limits, then direct Y limits,
then one `SetNextAxisLinks` per X slot and one per Y slot.  Axis numbers come
from `get_x_axis_from_index(k).unwrap()` (= `k`) and
`get_y_axis_from_index(k).unwrap()` (= `k + 3`). -/
def maybe_set_axis_limits (p : Plot) : List FCall :=
  (directLimitCalls 0 (p.x_limits.get 0) ++ directLimitCalls 1 (p.x_limits.get 1)
      ++ directLimitCalls 2 (p.x_limits.get 2))
  ++ (directLimitCalls 3 (p.y_limits.get 0) ++ directLimitCalls 4 (p.y_limits.get 1)
      ++ directLimitCalls 5 (p.y_limits.get 2))
  ++ [linkCall 0 (p.x_limits.get 0), linkCall 1 (p.x_limits.get 1),
      linkCall 2 (p.x_limits.get 2)]
  ++ [linkCall 3 (p.y_limits.get 0), linkCall 4 (p.y_limits.get 1),
      linkCall 5 (p.y_limits.get 2)]

/-- The `ImPlot_SetupAxisTicks_doublePtr` call issued for one axis slot of
`maybe_set_tick_labels`: skipped when no positions are stored or the stored
positions are empty; a missing label vector is passed as a null pointer. -/
def tickCalls (axisVal : Nat) (positions : Option (List F64))
    (labels : Option (List CString)) (showDefault : Bool) : List FCall :=
  match positions with
  | some ps =>
      if ps.isEmpty then []
      else [.setupAxisTicks axisVal ps (labels.map (List.map CString.bytes)) showDefault]
  | none => []

/-- `Plot::maybe_set_tick_labels`: the X-axis loop followed by the Y-axis
loop. -/
def maybe_set_tick_labels (p : Plot) : List FCall :=
  (tickCalls 0 (p.x_tick_positions.get 0) (p.x_tick_labels.get 0)
      (p.show_x_default_ticks.get 0)
    ++ tickCalls 1 (p.x_tick_positions.get 1) (p.x_tick_labels.get 1)
      (p.show_x_default_ticks.get 1)
    ++ tickCalls 2 (p.x_tick_positions.get 2) (p.x_tick_labels.get 2)
      (p.show_x_default_ticks.get 2))
  ++ (tickCalls 3 (p.y_tick_positions.get 0) (p.y_tick_labels.get 0)
      (p.show_y_default_ticks.get 0)
    ++ tickCalls 4 (p.y_tick_positions.get 1) (p.y_tick_labels.get 1)
      (p.show_y_default_ticks.get 1)
    ++ tickCalls 5 (p.y_tick_positions.get 2) (p.y_tick_labels.get 2)
      (p.show_y_default_ticks.get 2))

end Plot

/-- `PlotToken` from `plot.rs`.  The `context : *const Context` pointer is
abstracted to whether it is null (`end()` nulls it; `begin` stores the
non-null `plot_ui.context` reference). -/
structure PlotToken where
  contextIsNull : Bool
  plot_title : CString
deriving DecidableEq

/-- `PlotToken::end`: nulls the context pointer and calls `ImPlot_EndPlot`. -/
def PlotToken.finish (t : PlotToken) : PlotToken × List FCall :=
  ({ t with contextIsNull := true }, [.endPlot])

/-- `Drop for PlotToken`: whether the drop handler panics, given whether the
thread is already unwinding (`std::thread::panicking()`). -/
def PlotToken.dropPanics (t : PlotToken) (threadPanicking : Bool) : Bool :=
  !t.contextIsNull && !threadPanicking

namespace Plot

/-- `Plot::begin`: marshals limits and ticks, calls `ImPlot_BeginPlot`, and —
when the native library answers `true` (`shouldRender`) — sets up the X1/Y1
axes and the optional legend and returns a live token; otherwise returns
`None` with no further calls. -/
def begin (p : Plot) (shouldRender : Bool) : Option PlotToken × List FCall :=
  let prefixCalls := p.maybe_set_axis_limits ++ p.maybe_set_tick_labels
      ++ [FCall.beginPlot p.title.bytes p.size.1 p.size.2 p.plot_flags]
  if shouldRender then
    let setupCalls := [FCall.setupAxis Axis.X1.val p.x_label.bytes (p.x_flags.get 0),
                       FCall.setupAxis Axis.Y1.val p.y_label.bytes (p.y_flags.get 0)]
    let legendCalls := match p.legend_configuration with
      | some (location, flags) => [FCall.setupLegend location flags]
      | none => []
    (some { contextIsNull := false, plot_title := p.title },
      prefixCalls ++ setupCalls ++ legendCalls)
  else
    (none, prefixCalls)

/-- Result of `Plot::build`: whether the closure ran, and the foreign calls
issued (with the closure's own calls spliced in where it runs). -/
structure BuildResult where
  ran : Bool
  trace : List FCall
deriving DecidableEq

/-- `Plot::build`: `begin`, then — only if a token was returned — the closure
followed by `token.end()`. -/
def build (p : Plot) (shouldRender : Bool) (closureTrace : List FCall) : BuildResult :=
  match p.begin shouldRender with
  | (some t, calls) => { ran := true, trace := calls ++ closureTrace ++ t.finish.2 }
  | (none, calls) => { ran := false, trace := calls }

end Plot

-- ---- Plot elements (`plot_elements.rs`) ----

/-- Size of an `f64` in bytes: the stride argument of the data-series calls. -/
def STRIDE_F64 : Nat := 8

/-- `PlotLine`. -/
structure PlotLine where
  label : CString
  flags : Nat
deriving DecidableEq

/-- `PlotLine::new_with_flags`: panics exactly on interior null bytes. -/
def PlotLine.new_with_flags (label : List Nat) (flags : Nat) :
    Except PanicKind PlotLine := do
  .ok ⟨← CString.new label, flags⟩

/-- `PlotLine::new`. -/
def PlotLine.new (label : List Nat) : Except PanicKind PlotLine :=
  PlotLine.new_with_flags label 0

/-- `PlotLine::plot`: nothing when `min(x.len, y.len) == 0`, otherwise one
native call with count `min(x.len, y.len)`, offset 0 and stride 8. -/
def PlotLine.plot (l : PlotLine) (x y : List F64) : List FCall :=
  if Nat.min x.length y.length = 0 then []
  else [.plotLine l.label.bytes x y (Nat.min x.length y.length) l.flags 0 STRIDE_F64]

/-- `PlotStairs`. -/
structure PlotStairs where
  label : CString
  flags : Nat
deriving DecidableEq

/-- `PlotStairs::new_with_flags`: panics exactly on interior null bytes. -/
def PlotStairs.new_with_flags (label : List Nat) (flags : Nat) :
    Except PanicKind PlotStairs := do
  .ok ⟨← CString.new label, flags⟩

/-- `PlotStairs::plot`. -/
def PlotStairs.plot (l : PlotStairs) (x y : List F64) : List FCall :=
  if Nat.min x.length y.length = 0 then []
  else [.plotStairs l.label.bytes x y (Nat.min x.length y.length) l.flags 0 STRIDE_F64]

/-- `PlotScatter`. -/
structure PlotScatter where
  label : CString
  flags : Nat
deriving DecidableEq

/-- `PlotScatter::new_with_flags`: panics exactly on interior null bytes. -/
def PlotScatter.new_with_flags (label : List Nat) (flags : Nat) :
    Except PanicKind PlotScatter := do
  .ok ⟨← CString.new label, flags⟩

/-- `PlotScatter::plot`. -/
def PlotScatter.plot (l : PlotScatter) (x y : List F64) : List FCall :=
  if Nat.min x.length y.length = 0 then []
  else [.plotScatter l.label.bytes x y (Nat.min x.length y.length) l.flags 0 STRIDE_F64]

/-- `PlotBars`. -/
structure PlotBars where
  label : CString
  bar_width : F64
  flags : Nat
deriving DecidableEq

/-- `PlotBars::new_with_flags`: panics exactly on interior null bytes;
default bar width 0.67. -/
def PlotBars.new_with_flags (label : List Nat) (flags : Nat) :
    Except PanicKind PlotBars := do
  .ok ⟨← CString.new label, (67 : F64) / 100, flags⟩

/-- `PlotBars::with_bar_width`. -/
def PlotBars.with_bar_width (b : PlotBars) (barWidth : F64) : PlotBars × List FCall :=
  ({ b with bar_width := barWidth }, [])

/-- `PlotBars::plot`: nothing when the minimum length is 0; otherwise one
native call with count `min`, swapping the two slices in horizontal mode. -/
def PlotBars.plot (b : PlotBars) (axisPositions barValues : List F64) : List FCall :=
  let numberOfPoints := Nat.min axisPositions.length barValues.length
  if numberOfPoints = 0 then []
  else
    let xy :=
      -- `BarsFlags::HORIZONTAL` is `ImPlotBarsFlags_Horizontal`, bit 10.
      if b.flags.testBit 10 then (barValues, axisPositions)
      else (axisPositions, barValues)
    [.plotBars b.label.bytes xy.1 xy.2 numberOfPoints b.bar_width b.flags 0 STRIDE_F64]

/-- `PlotText`. -/
structure PlotText where
  label : CString
  pixel_offset_x : F32
  pixel_offset_y : F32
  flags : Nat
deriving DecidableEq

/-- `PlotText::new_with_flags`: panics exactly on interior null bytes. -/
def PlotText.new_with_flags (label : List Nat) (flags : Nat) :
    Except PanicKind PlotText := do
  .ok ⟨← CString.new label, 0, 0, flags⟩

/-- `PlotText::with_pixel_offset`. -/
def PlotText.with_pixel_offset (t : PlotText) (offsetX offsetY : F32) :
    PlotText × List FCall :=
  ({ t with pixel_offset_x := offsetX, pixel_offset_y := offsetY }, [])

/-- `PlotText::plot`: nothing when the label is empty, otherwise one call. -/
def PlotText.plot (t : PlotText) (x y : F64) : List FCall :=
  if t.label.bytes.isEmpty then []
  else [.plotText t.label.bytes x y t.pixel_offset_x t.pixel_offset_y t.flags]

/-- `PlotHeatmap`. -/
structure PlotHeatmap where
  label : CString
  scale_range : Option (F64 × F64)
  label_format : Option CString
  drawarea_lower_left : ImPlotPoint
  drawarea_upper_right : ImPlotPoint
  flags : Nat
deriving DecidableEq

/-- The bytes of the default label format string `"%.1f"`. -/
def heatmapDefaultFormat : List Nat := [37, 46, 49, 102]

/-- `PlotHeatmap::new_with_flags`: panics exactly on interior null bytes. -/
def PlotHeatmap.new_with_flags (label : List Nat) (flags : Nat) :
    Except PanicKind PlotHeatmap := do
  .ok {
    label := ← CString.new label
    scale_range := none
    label_format := some ⟨heatmapDefaultFormat⟩
    drawarea_lower_left := ⟨0, 0⟩
    drawarea_upper_right := ⟨1, 1⟩
    flags := flags
  }

/-- `PlotHeatmap::with_scale`. -/
def PlotHeatmap.with_scale (h : PlotHeatmap) (scaleMin scaleMax : F64) :
    PlotHeatmap × List FCall :=
  ({ h with scale_range := some (scaleMin, scaleMax) }, [])

/-- `PlotHeatmap::plot`: when no scale range is stored, the scale is computed
by starting from `values[0]` — an out-of-bounds panic on an empty slice — and
folding `min`/`max` over the slice; then one native call is issued. -/
def PlotHeatmap.plot (h : PlotHeatmap) (values : List F64) (rows cols : Nat) :
    Except PanicKind (List FCall) := do
  let scaleRange ← match h.scale_range with
    | some r => Except.ok r
    | none =>
        match values with
        | [] => Except.error PanicKind.indexOutOfBounds
        | v0 :: _ => Except.ok (values.foldl min v0, values.foldl max v0)
  .ok [.plotHeatmap h.label.bytes values rows cols scaleRange.1 scaleRange.2
        (h.label_format.map CString.bytes) h.drawarea_lower_left
        h.drawarea_upper_right h.flags]

/-- `PlotStems`. -/
structure PlotStems where
  label : CString
  reference_y : F64
  flags : Nat
deriving DecidableEq

/-- `PlotStems::new_with_flags`: panics exactly on interior null bytes;
default reference y 0. -/
def PlotStems.new_with_flags (label : List Nat) (flags : Nat) :
    Except PanicKind PlotStems := do
  .ok ⟨← CString.new label, 0, flags⟩

/-- `PlotStems::with_reference_y`. -/
def PlotStems.with_reference_y (s : PlotStems) (referenceY : F64) :
    PlotStems × List FCall :=
  ({ s with reference_y := referenceY }, [])

/-- `PlotStems::plot`: nothing when the minimum length is 0, otherwise one
native call with count `min`. -/
def PlotStems.plot (s : PlotStems) (axisPositions stemValues : List F64) : List FCall :=
  let numberOfPoints := Nat.min axisPositions.length stemValues.length
  if numberOfPoints = 0 then []
  else [.plotStems s.label.bytes axisPositions stemValues numberOfPoints
          s.reference_y s.flags 0 STRIDE_F64]

-- ---- Style stack tokens (`lib.rs`) ----

/-- `StyleColorToken`. -/
structure StyleColorToken where
  was_popped : Bool
deriving DecidableEq

/-- `push_style_color`: one `ImPlot_PushStyleColor_Vec4` call, token starts
un-popped. -/
def push_style_color (element : Nat) (red green blue alpha : F32) :
    StyleColorToken × List FCall :=
  ({ was_popped := false }, [.pushStyleColor element red green blue alpha])

/-- `StyleColorToken::pop`: panics on a second pop, otherwise one
`ImPlot_PopStyleColor(1)` call. -/
def StyleColorToken.pop (t : StyleColorToken) : Except PanicKind (List FCall) :=
  if t.was_popped then .error .doublePop else .ok [.popStyleColor 1]

/-- `StyleVarToken`. -/
structure StyleVarToken where
  was_popped : Bool
deriving DecidableEq

/-- `push_style_var_f32`. -/
def push_style_var_f32 (element : Nat) (value : F32) : StyleVarToken × List FCall :=
  ({ was_popped := false }, [.pushStyleVarF32 element value])

/-- `push_style_var_i32`. -/
def push_style_var_i32 (element : Nat) (value : Int) : StyleVarToken × List FCall :=
  ({ was_popped := false }, [.pushStyleVarI32 element value])

/-- `push_style_var_imvec2`. -/
def push_style_var_imvec2 (element : Nat) (valueX valueY : F32) :
    StyleVarToken × List FCall :=
  ({ was_popped := false }, [.pushStyleVarImVec2 element valueX valueY])

/-- `StyleVarToken::pop`: panics on a second pop, otherwise one
`ImPlot_PopStyleVar(1)` call. -/
def StyleVarToken.pop (t : StyleVarToken) : Except PanicKind (List FCall) :=
  if t.was_popped then .error .doublePop else .ok [.popStyleVar 1]

/-- The builder `Plot::new("")` produces: all defaults, empty title. -/
def emptyPlot : Plot := {
  title := ⟨[]⟩
  size := (DEFAULT_PLOT_SIZE_X, DEFAULT_PLOT_SIZE_Y)
  x_label := ⟨[]⟩
  y_label := ⟨[]⟩
  x_limits := Triple.const none
  y_limits := Triple.const none
  x_tick_positions := Triple.const none
  x_tick_labels := Triple.const none
  show_x_default_ticks := Triple.const false
  y_tick_positions := Triple.const none
  y_tick_labels := Triple.const none
  show_y_default_ticks := Triple.const false
  legend_configuration := none
  plot_flags := 0
  x_flags := Triple.const 0
  y_flags := Triple.const 0
}

/-- Number of `ImPlot_EndPlot` calls in a trace. -/
def countEnd : List FCall → Nat
  | [] => 0
  | c :: rest => (if c = FCall.endPlot then 1 else 0) + countEnd rest

/-- The point count passed to a native data-series call, if the call is one. -/
def FCall.seriesCount : FCall → Option Nat
  | .plotLine _ _ _ count _ _ _ => some count
  | .plotStairs _ _ _ count _ _ _ => some count
  | .plotScatter _ _ _ count _ _ _ => some count
  | .plotBars _ _ _ count _ _ _ _ => some count
  | .plotStems _ _ _ count _ _ _ _ => some count
  | _ => none

/-- Every label in one optional tick-label vector has no interior null
bytes. -/
def labelsOk : Option (List CString) → Bool
  | none => true
  | some ls => ls.all (fun c => !c.bytes.contains 0)

/-- Every stored tick label of a 3-slot axis array is a valid `CString`. -/
def tickLabelsOk (t : Triple (Option (List CString))) : Bool :=
  labelsOk t.a0 && labelsOk t.a1 && labelsOk t.a2

/-- Invariant for C7: every label stored in the builder has no interior null
bytes, so `withTerminator` on each of them is a properly null-terminated byte
string. -/
def Plot.labelsValid (p : Plot) : Bool :=
  !p.title.bytes.contains 0 && !p.x_label.bytes.contains 0
    && !p.y_label.bytes.contains 0 && tickLabelsOk p.x_tick_labels
    && tickLabelsOk p.y_tick_labels

end Implot

namespace Implot

theorem countEnd_append (a b : List FCall) :
    countEnd (a ++ b) = countEnd a + countEnd b := by
  induction a with
  | nil => simp [countEnd]
  | cons c rest ih => simp [countEnd, ih]; omega

theorem countEnd_directLimitCalls (axisVal : Nat)
    (s : Option AxisLimitSpecification) : countEnd (Plot.directLimitCalls axisVal s) = 0 := by
  rcases s with _ | s
  · rfl
  · cases s <;> rfl

theorem countEnd_linkCall (axisVal : Nat) (s : Option AxisLimitSpecification) :
    countEnd [Plot.linkCall axisVal s] = 0 := by
  rcases s with _ | s
  · rfl
  · cases s <;> rfl

theorem countEnd_tickCalls (axisVal : Nat) (positions : Option (List F64))
    (labels : Option (List CString)) (showDefault : Bool) :
    countEnd (Plot.tickCalls axisVal positions labels showDefault) = 0 := by
  rcases positions with _ | ps
  · rfl
  · simp only [Plot.tickCalls]
    split <;> rfl

theorem countEnd_maybe_set_axis_limits (p : Plot) :
    countEnd p.maybe_set_axis_limits = 0 := by
  simp only [Plot.maybe_set_axis_limits, countEnd_append]
  have h1 := countEnd_directLimitCalls 0 (p.x_limits.get 0)
  have h2 := countEnd_directLimitCalls 1 (p.x_limits.get 1)
  have h3 := countEnd_directLimitCalls 2 (p.x_limits.get 2)
  have h4 := countEnd_directLimitCalls 3 (p.y_limits.get 0)
  have h5 := countEnd_directLimitCalls 4 (p.y_limits.get 1)
  have h6 := countEnd_directLimitCalls 5 (p.y_limits.get 2)
  have l1 := countEnd_linkCall 0 (p.x_limits.get 0)
  have l2 := countEnd_linkCall 1 (p.x_limits.get 1)
  have l3 := countEnd_linkCall 2 (p.x_limits.get 2)
  have l4 := countEnd_linkCall 3 (p.y_limits.get 0)
  have l5 := countEnd_linkCall 4 (p.y_limits.get 1)
  have l6 := countEnd_linkCall 5 (p.y_limits.get 2)
  have expand : ∀ (a b c : FCall), countEnd [a, b, c] = countEnd [a] + countEnd [b] + countEnd [c] := by
    intro a b c; simp [countEnd]; omega
  rw [expand, expand] at *
  omega

theorem countEnd_maybe_set_tick_labels (p : Plot) :
    countEnd p.maybe_set_tick_labels = 0 := by
  simp only [Plot.maybe_set_tick_labels, countEnd_append]
  simp [countEnd_tickCalls]

/-- The trace of `Plot::begin` never contains an `ImPlot_EndPlot` call. -/
theorem countEnd_begin (p : Plot) (shouldRender : Bool) :
    countEnd (p.begin shouldRender).2 = 0 := by
  unfold Plot.begin
  cases shouldRender with
  | false =>
      simp only [if_neg (by simp : ¬(false = true))]
      simp [countEnd_append, countEnd_maybe_set_axis_limits,
        countEnd_maybe_set_tick_labels, countEnd]
  | true =>
      simp only [if_pos rfl]
      rcases hleg : p.legend_configuration with _ | ⟨loc, fl⟩ <;>
        simp [hleg, countEnd_append, countEnd_maybe_set_axis_limits,
          countEnd_maybe_set_tick_labels, countEnd]

end Implot

namespace Implot

/-- C1: A token returned by `Plot::begin` must be ended exactly once: a live
token's drop handler panics when the thread is not already unwinding, while
after `end()` (which issues one `ImPlot_EndPlot` call) the drop is silent
whether unwinding or not. -/
theorem plot_token_end_exactly_once (p : Plot) (shouldRender : Bool)
    (t : PlotToken) (calls : List FCall)
    (h : p.begin shouldRender = (some t, calls)) :
    t.dropPanics false = true ∧
    t.finish.1.dropPanics false = false ∧
    t.finish.1.dropPanics true = false ∧
    t.dropPanics true = false ∧
    t.finish.2 = [FCall.endPlot] := by
  unfold Plot.begin at h
  split at h
  · simp only [Prod.mk.injEq, Option.some.injEq] at h
    obtain ⟨ht, -⟩ := h
    subst ht
    exact ⟨rfl, rfl, rfl, rfl, rfl⟩
  · simp at h

/-- Witness for C1 at the default plot with `shouldRender = true`. -/
theorem plot_token_end_exactly_once_witness :
    (PlotToken.mk false ⟨[]⟩).dropPanics false = true ∧
    (PlotToken.mk false ⟨[]⟩).finish.1.dropPanics false = false ∧
    (PlotToken.mk false ⟨[]⟩).finish.1.dropPanics true = false ∧
    (PlotToken.mk false ⟨[]⟩).dropPanics true = false ∧
    (PlotToken.mk false ⟨[]⟩).finish.2 = [FCall.endPlot] :=
  plot_token_end_exactly_once emptyPlot true (PlotToken.mk false ⟨[]⟩)
    ((emptyPlot.begin true).2) rfl

/-- C4: `Plot::build` calls `begin`; `begin` signals "proceed" exactly when
the native `BeginPlot` call does; the closure runs exactly when `begin`
returned a token, in which case `end` is called on it once (one
`ImPlot_EndPlot` call after the closure); when `begin` returns `None` nothing
further happens.  The `ImPlot_EndPlot` count of the whole trace shows the
pairing is balanced. -/
theorem build_pairs_begin_and_end (p : Plot) (shouldRender : Bool)
    (closureTrace : List FCall) :
    ((p.begin shouldRender).1.isSome = shouldRender) ∧
    ((p.build shouldRender closureTrace).ran = shouldRender) ∧
    ((p.build shouldRender closureTrace).trace =
      if shouldRender then (p.begin shouldRender).2 ++ closureTrace ++ [FCall.endPlot]
      else (p.begin shouldRender).2) ∧
    (countEnd (p.build shouldRender closureTrace).trace =
      if shouldRender then countEnd closureTrace + 1 else 0) := by
  have hb := countEnd_begin p shouldRender
  cases shouldRender with
  | false =>
      refine ⟨?_, ?_, ?_, ?_⟩ <;>
        simp_all [Plot.build, Plot.begin, countEnd_append, countEnd]
  | true =>
      unfold Plot.build
      rcases hbeg : p.begin true with ⟨tok, calls⟩
      rcases tok with _ | t
      · have : (p.begin true).1.isSome = true := by unfold Plot.begin; simp
        rw [hbeg] at this; simp at this
      · rw [hbeg] at hb
        simp only [countEnd] at hb
        refine ⟨by simp, by simp, by simp [PlotToken.finish], ?_⟩
        simp [countEnd_append, PlotToken.finish, countEnd, hb]

/-- C10: The double-pop branches are unreachable for tokens obtained from the
push functions: every push constructor returns a token with
`was_popped = false`, and popping such a token never panics and issues
exactly one pop call to the foreign interface. -/
theorem style_tokens_pop_once (element : Nat) (red green blue alpha : F32)
    (value : F32) (valueI : Int) (vx vy : F32) :
    (push_style_color element red green blue alpha).1.was_popped = false ∧
    (push_style_color element red green blue alpha).1.pop =
      .ok [FCall.popStyleColor 1] ∧
    (push_style_color element red green blue alpha).2 =
      [FCall.pushStyleColor element red green blue alpha] ∧
    (push_style_var_f32 element value).1.was_popped = false ∧
    (push_style_var_f32 element value).1.pop = .ok [FCall.popStyleVar 1] ∧
    (push_style_var_i32 element valueI).1.was_popped = false ∧
    (push_style_var_i32 element valueI).1.pop = .ok [FCall.popStyleVar 1] ∧
    (push_style_var_imvec2 element vx vy).1.was_popped = false ∧
    (push_style_var_imvec2 element vx vy).1.pop = .ok [FCall.popStyleVar 1] :=
  ⟨rfl, rfl, rfl, rfl, rfl, rfl, rfl, rfl, rfl⟩

/-- C8: Wrapper operations are stateless: the result and foreign-call
sequence of `push_style_color` (and the var pushes) are a fixed function of
the arguments, and the call sequence of `Plot::begin`'s limit marshalling
depends only on the limit fields (two builders differing in any other field
marshal identically), so two runs with equal arguments issue equal call
sequences. -/
theorem wrapper_operations_stateless :
    (∀ (element : Nat) (red green blue alpha : F32),
      push_style_color element red green blue alpha =
        (⟨false⟩, [FCall.pushStyleColor element red green blue alpha])) ∧
    (∀ (element : Nat) (value : F32),
      push_style_var_f32 element value =
        (⟨false⟩, [FCall.pushStyleVarF32 element value])) ∧
    (∀ (element : Nat) (value : Int),
      push_style_var_i32 element value =
        (⟨false⟩, [FCall.pushStyleVarI32 element value])) ∧
    (∀ (element : Nat) (vx vy : F32),
      push_style_var_imvec2 element vx vy =
        (⟨false⟩, [FCall.pushStyleVarImVec2 element vx vy])) ∧
    (∀ (p q : Plot), p.x_limits = q.x_limits → p.y_limits = q.y_limits →
      p.maybe_set_axis_limits = q.maybe_set_axis_limits) := by
  refine ⟨fun _ _ _ _ _ => rfl, fun _ _ => rfl, fun _ _ => rfl, fun _ _ _ => rfl, ?_⟩
  intro p q hx hy
  unfold Plot.maybe_set_axis_limits
  rw [hx, hy]

/-- Witness for C8: two builders equal in their limit fields but with
different titles marshal the same limit calls. -/
theorem wrapper_operations_stateless_witness :
    { emptyPlot with title := ⟨[97]⟩ : Plot }.maybe_set_axis_limits =
      emptyPlot.maybe_set_axis_limits :=
  wrapper_operations_stateless.2.2.2.2 { emptyPlot with title := ⟨[97]⟩ }
    emptyPlot rfl rfl

/-- C6: Each data-series element's `plot` does nothing when
`min(x.len, y.len) = 0`, and otherwise issues exactly one native call whose
point count is `min(x.len, y.len)` — mismatched lengths are truncated to the
shorter slice. -/
theorem series_plots_truncate_to_min (line : PlotLine) (stairs : PlotStairs)
    (scatter : PlotScatter) (bars : PlotBars) (stems : PlotStems)
    (x y : List F64) :
    (Nat.min x.length y.length = 0 →
      line.plot x y = [] ∧ stairs.plot x y = [] ∧ scatter.plot x y = [] ∧
      bars.plot x y = [] ∧ stems.plot x y = []) ∧
    (Nat.min x.length y.length ≠ 0 →
      (line.plot x y).map FCall.seriesCount = [some (Nat.min x.length y.length)] ∧
      (stairs.plot x y).map FCall.seriesCount = [some (Nat.min x.length y.length)] ∧
      (scatter.plot x y).map FCall.seriesCount = [some (Nat.min x.length y.length)] ∧
      (bars.plot x y).map FCall.seriesCount = [some (Nat.min x.length y.length)] ∧
      (stems.plot x y).map FCall.seriesCount = [some (Nat.min x.length y.length)]) := by
  constructor
  · intro h
    refine ⟨?_, ?_, ?_, ?_, ?_⟩ <;>
      simp [PlotLine.plot, PlotStairs.plot, PlotScatter.plot, PlotBars.plot,
        PlotStems.plot, h]
  · intro h
    refine ⟨?_, ?_, ?_, ?_, ?_⟩
    · simp [PlotLine.plot, h, FCall.seriesCount]
    · simp [PlotStairs.plot, h, FCall.seriesCount]
    · simp [PlotScatter.plot, h, FCall.seriesCount]
    · simp only [PlotBars.plot]
      rw [if_neg h]
      split <;> simp [FCall.seriesCount]
    · simp [PlotStems.plot, h, FCall.seriesCount]

/-- Witness for C6 with mismatched slice lengths 2 and 1 (count 1) and the
empty-input case. -/
theorem series_plots_truncate_to_min_witness :
    (Nat.min ([0, 1] : List F64).length ([5] : List F64).length ≠ 0 ∧
      ((PlotLine.mk ⟨[97]⟩ 0).plot [0, 1] [5]).map FCall.seriesCount =
        [some (Nat.min ([0, 1] : List F64).length ([5] : List F64).length)]) ∧
    (Nat.min ([] : List F64).length ([5] : List F64).length = 0 ∧
      (PlotLine.mk ⟨[97]⟩ 0).plot [] [5] = []) := by
  refine ⟨⟨by decide, ?_⟩, ⟨by decide, ?_⟩⟩
  · exact ((series_plots_truncate_to_min (PlotLine.mk ⟨[97]⟩ 0)
      (PlotStairs.mk ⟨[]⟩ 0) (PlotScatter.mk ⟨[]⟩ 0) (PlotBars.mk ⟨[]⟩ 0 0)
      (PlotStems.mk ⟨[]⟩ 0 0) [0, 1] [5]).2 (by decide)).1
  · exact ((series_plots_truncate_to_min (PlotLine.mk ⟨[97]⟩ 0)
      (PlotStairs.mk ⟨[]⟩ 0) (PlotScatter.mk ⟨[]⟩ 0) (PlotBars.mk ⟨[]⟩ 0 0)
      (PlotStems.mk ⟨[]⟩ 0 0) [] [5]).1 (by decide)).1

/-- C3 counterexample: `PlotHeatmap::new("hm")` (no scale range) followed by
`plot` on the empty values slice panics with an out-of-bounds index
(`values[0]` in the scale computation), contradicting the claim that
`PlotHeatmap::plot` completes without panicking for every values slice. -/
theorem heatmap_empty_values_panics :
    PlotHeatmap.new_with_flags [104, 109] 0 = Except.ok
      (PlotHeatmap.mk ⟨[104, 109]⟩ none (some ⟨heatmapDefaultFormat⟩)
        ⟨0, 0⟩ ⟨1, 1⟩ 0) ∧
    (PlotHeatmap.mk ⟨[104, 109]⟩ none (some ⟨heatmapDefaultFormat⟩)
        ⟨0, 0⟩ ⟨1, 1⟩ 0).plot [] 1 1 =
      Except.error PanicKind.indexOutOfBounds :=
  ⟨rfl, rfl⟩

/-- C3 amended: `PlotHeatmap::plot` panics exactly when the values slice is
empty and no scale range was set; it completes for every non-empty values
slice, and for every values slice once a scale range is set. -/
theorem heatmap_plot_panics_iff_empty_and_unscaled (h : PlotHeatmap)
    (values : List F64) (rows cols : Nat) :
    (h.plot values rows cols).isOk ↔ (h.scale_range.isSome ∨ values ≠ []) := by
  rcases hs : h.scale_range with _ | r
  · rcases values with _ | ⟨v, rest⟩
    · simp [PlotHeatmap.plot, hs, Except.isOk, Except.toBool, bind, Except.bind]
    · simp [PlotHeatmap.plot, hs, Except.isOk, Except.toBool, bind, Except.bind]
  · simp [PlotHeatmap.plot, hs, Except.isOk, Except.toBool, bind, Except.bind]

/-- `collectTickLabels` characterized: succeeds with the converted labels
exactly when no label has an interior null byte. -/
theorem collectTickLabels_eq (tickLabels : List (F64 × List Nat)) :
    Plot.collectTickLabels tickLabels =
      if tickLabels.all (fun pair => !pair.2.contains 0)
      then .ok (tickLabels.map (fun pair => ⟨pair.2⟩))
      else .error .nullByte := by
  induction tickLabels with
  | nil => rfl
  | cons hd rest ih =>
      rcases hd with ⟨pos, s⟩
      simp only [Plot.collectTickLabels, CString.new, bind, Except.bind, ih,
        List.all_cons]
      by_cases hc : (0 : Nat) ∈ s
      · simp [hc]
      · rw [if_neg (by simpa using hc)]
        by_cases hr : rest.all (fun pair => !pair.2.contains 0)
        · rw [if_pos hr]
          have hcond : (!s.contains 0 && rest.all fun pair => !pair.2.contains 0)
              = true := by
            rw [Bool.and_eq_true, hr]
            simpa using hc
          rw [if_pos hcond]
          rfl
        · rw [if_neg hr]
          have hcond : ¬((!s.contains 0 && rest.all fun pair => !pair.2.contains 0)
              = true) := by
            intro hcontra
            rw [Bool.and_eq_true] at hcontra
            exact hr hcontra.2
          rw [if_neg hcond]

/-- C2 counterexample: a user-supplied tick label containing an embedded null
byte does not panic when the axis argument is a Y axis — the labels are
silently ignored (`x_ticks_with_labels` with `Axis::Y1` is a no-op), so
"construction panics if and only if the string contains an embedded null
byte" fails for tick labels. -/
theorem null_tick_label_ignored_on_mismatched_axis :
    emptyPlot.x_ticks_with_labels Axis.Y1 [((0 : F64), [0])] false =
      Except.ok (emptyPlot, []) :=
  rfl

/-- C2 amended: constructing with a plot title, axis label or plot-element
legend label panics if and only if the string has an embedded null byte, and
otherwise succeeds and stores the label; for tick labels this holds when the
axis argument refers to an axis of the matching kind, while with a
mismatched axis the call ignores the labels (storing nothing) and never
panics. -/
theorem label_construction_panics_iff_null_byte :
    (∀ s : List Nat, Plot.new s =
      if s.contains 0 then .error .nullByte
      else .ok { emptyPlot with title := ⟨s⟩ }) ∧
    (∀ (p : Plot) (s : List Nat), p.x_label' s =
      if s.contains 0 then .error .nullByte else .ok ({ p with x_label := ⟨s⟩ }, [])) ∧
    (∀ (p : Plot) (s : List Nat), p.y_label' s =
      if s.contains 0 then .error .nullByte else .ok ({ p with y_label := ⟨s⟩ }, [])) ∧
    (∀ (s : List Nat) (flags : Nat), PlotLine.new_with_flags s flags =
      if s.contains 0 then .error .nullByte else .ok ⟨⟨s⟩, flags⟩) ∧
    (∀ (s : List Nat) (flags : Nat), PlotStairs.new_with_flags s flags =
      if s.contains 0 then .error .nullByte else .ok ⟨⟨s⟩, flags⟩) ∧
    (∀ (s : List Nat) (flags : Nat), PlotScatter.new_with_flags s flags =
      if s.contains 0 then .error .nullByte else .ok ⟨⟨s⟩, flags⟩) ∧
    (∀ (s : List Nat) (flags : Nat), PlotBars.new_with_flags s flags =
      if s.contains 0 then .error .nullByte else .ok ⟨⟨s⟩, (67 : F64) / 100, flags⟩) ∧
    (∀ (s : List Nat) (flags : Nat), PlotText.new_with_flags s flags =
      if s.contains 0 then .error .nullByte else .ok ⟨⟨s⟩, 0, 0, flags⟩) ∧
    (∀ (s : List Nat) (flags : Nat), PlotHeatmap.new_with_flags s flags =
      if s.contains 0 then .error .nullByte
      else .ok ⟨⟨s⟩, none, some ⟨heatmapDefaultFormat⟩, ⟨0, 0⟩, ⟨1, 1⟩, flags⟩) ∧
    (∀ (s : List Nat) (flags : Nat), PlotStems.new_with_flags s flags =
      if s.contains 0 then .error .nullByte else .ok ⟨⟨s⟩, 0, flags⟩) ∧
    (∀ (p : Plot) (axis : Axis) (tickLabels : List (F64 × List Nat)) (sd : Bool)
      (i : Nat) (hi : i < 3), get_x_axis_index axis = some i →
      p.x_ticks_with_labels axis tickLabels sd =
        if tickLabels.all (fun pair => !pair.2.contains 0)
        then .ok ({ p with
            x_tick_positions := p.x_tick_positions.set ⟨i, hi⟩
              (some (tickLabels.map (·.1)))
            x_tick_labels := p.x_tick_labels.set ⟨i, hi⟩
              (some (tickLabels.map (fun pair => ⟨pair.2⟩)))
            show_x_default_ticks := p.show_x_default_ticks.set ⟨i, hi⟩ sd }, [])
        else .error .nullByte) ∧
    (∀ (p : Plot) (axis : Axis) (tickLabels : List (F64 × List Nat)) (sd : Bool),
      get_x_axis_index axis = none →
      p.x_ticks_with_labels axis tickLabels sd = .ok (p, [])) ∧
    (∀ (p : Plot) (axis : Axis) (tickLabels : List (F64 × List Nat)) (sd : Bool)
      (i : Nat) (hi : i < 3), get_y_axis_index axis = some i →
      p.y_ticks_with_labels axis tickLabels sd =
        if tickLabels.all (fun pair => !pair.2.contains 0)
        then .ok ({ p with
            y_tick_positions := p.y_tick_positions.set ⟨i, hi⟩
              (some (tickLabels.map (·.1)))
            y_tick_labels := p.y_tick_labels.set ⟨i, hi⟩
              (some (tickLabels.map (fun pair => ⟨pair.2⟩)))
            show_y_default_ticks := p.show_y_default_ticks.set ⟨i, hi⟩ sd }, [])
        else .error .nullByte) ∧
    (∀ (p : Plot) (axis : Axis) (tickLabels : List (F64 × List Nat)) (sd : Bool),
      get_y_axis_index axis = none →
      p.y_ticks_with_labels axis tickLabels sd = .ok (p, [])) := by
  refine ⟨?_, ?_, ?_, ?_, ?_, ?_, ?_, ?_, ?_, ?_, ?_, ?_, ?_, ?_⟩
  · intro s
    by_cases hc : (0 : Nat) ∈ s <;>
      simp [Plot.new, CString.new, hc, bind, Except.bind, emptyPlot]
  · intro p s
    by_cases hc : (0 : Nat) ∈ s <;>
      simp [Plot.x_label', CString.new, hc, bind, Except.bind]
  · intro p s
    by_cases hc : (0 : Nat) ∈ s <;>
      simp [Plot.y_label', CString.new, hc, bind, Except.bind]
  · intro s flags
    by_cases hc : (0 : Nat) ∈ s <;>
      simp [PlotLine.new_with_flags, CString.new, hc, bind, Except.bind]
  · intro s flags
    by_cases hc : (0 : Nat) ∈ s <;>
      simp [PlotStairs.new_with_flags, CString.new, hc, bind, Except.bind]
  · intro s flags
    by_cases hc : (0 : Nat) ∈ s <;>
      simp [PlotScatter.new_with_flags, CString.new, hc, bind, Except.bind]
  · intro s flags
    by_cases hc : (0 : Nat) ∈ s <;>
      simp [PlotBars.new_with_flags, CString.new, hc, bind, Except.bind]
  · intro s flags
    by_cases hc : (0 : Nat) ∈ s <;>
      simp [PlotText.new_with_flags, CString.new, hc, bind, Except.bind]
  · intro s flags
    by_cases hc : (0 : Nat) ∈ s <;>
      simp [PlotHeatmap.new_with_flags, CString.new, hc, bind, Except.bind]
  · intro s flags
    by_cases hc : (0 : Nat) ∈ s <;>
      simp [PlotStems.new_with_flags, CString.new, hc, bind, Except.bind]
  · intro p axis tickLabels sd i hi h
    simp only [Plot.x_ticks_with_labels, collectTickLabels_eq, bind, Except.bind]
    split
    · rename_i i' heq
      rw [h] at heq
      injection heq with hii
      subst hii
      by_cases hall : tickLabels.all (fun pair => !pair.2.contains 0)
      · simp only [if_pos hall]
      · simp only [if_neg hall]
    · rename_i heq
      rw [h] at heq
      simp at heq
  · intro p axis tickLabels sd h
    simp only [Plot.x_ticks_with_labels]
    split
    · rename_i i' heq
      rw [h] at heq
      simp at heq
    · rfl
  · intro p axis tickLabels sd i hi h
    simp only [Plot.y_ticks_with_labels, collectTickLabels_eq, bind, Except.bind]
    split
    · rename_i i' heq
      rw [h] at heq
      injection heq with hii
      subst hii
      by_cases hall : tickLabels.all (fun pair => !pair.2.contains 0)
      · simp only [if_pos hall]
      · simp only [if_neg hall]
    · rename_i heq
      rw [h] at heq
      simp at heq
  · intro p axis tickLabels sd h
    simp only [Plot.y_ticks_with_labels]
    split
    · rename_i i' heq
      rw [h] at heq
      simp at heq
    · rfl

/-- Witness for C2's amended theorem: `x_ticks_with_labels` on the first X
axis with a clean label stores the label; the axis hypothesis is discharged
at `Axis::X1`, index 0. -/
theorem label_construction_panics_iff_null_byte_witness :
    emptyPlot.x_ticks_with_labels Axis.X1 [((0 : F64), [97])] false =
      (if [((0 : F64), [97])].all (fun pair => !pair.2.contains 0)
       then .ok ({ emptyPlot with
          x_tick_positions := emptyPlot.x_tick_positions.set ⟨0, by decide⟩
            (some ([((0 : F64), [97])].map (·.1)))
          x_tick_labels := emptyPlot.x_tick_labels.set ⟨0, by decide⟩
            (some ([((0 : F64), [97])].map (fun pair => ⟨pair.2⟩)))
          show_x_default_ticks := emptyPlot.show_x_default_ticks.set ⟨0, by decide⟩
            false }, [])
       else .error .nullByte) :=
  label_construction_panics_iff_null_byte.2.2.2.2.2.2.2.2.2.2.1
    emptyPlot Axis.X1 [((0 : F64), [97])] false 0 (by decide) rfl

/-- C5: Every builder setter of `Plot` only accumulates: it issues no foreign
call (empty call list) and returns the builder with exactly the fields of
that setting replaced (the record-update form shows every other field
unchanged); axis-guarded setters leave the builder untouched for a
mismatched axis. -/
theorem setters_only_accumulate :
    (∀ (p : Plot) (sz : F32 × F32), p.size' sz = ({ p with size := sz }, [])) ∧
    (∀ (p : Plot) (s : List Nat) (q : Plot) (calls : List FCall),
      p.x_label' s = .ok (q, calls) →
      calls = [] ∧ q = { p with x_label := ⟨s⟩ }) ∧
    (∀ (p : Plot) (s : List Nat) (q : Plot) (calls : List FCall),
      p.y_label' s = .ok (q, calls) →
      calls = [] ∧ q = { p with y_label := ⟨s⟩ }) ∧
    (∀ (p : Plot) (limits : ImPlotRange) (cond : Nat) (axis : Axis)
      (i : Nat) (hi : i < 3), get_x_axis_index axis = some i →
      p.x_limits' limits cond axis =
        ({ p with
            x_limits := p.x_limits.set ⟨i, hi⟩ (some (.Single limits cond)) },
          [])) ∧
    (∀ (p : Plot) (limits : ImPlotRange) (cond : Nat) (axis : Axis),
      get_x_axis_index axis = none → p.x_limits' limits cond axis = (p, [])) ∧
    (∀ (p : Plot) (limits : ImPlotRange) (cond : Nat) (axis : Axis)
      (i : Nat) (hi : i < 3), get_y_axis_index axis = some i →
      p.y_limits' limits cond axis =
        ({ p with
            y_limits := p.y_limits.set ⟨i, hi⟩ (some (.Single limits cond)) },
          [])) ∧
    (∀ (p : Plot) (limits : ImPlotRange) (cond : Nat) (axis : Axis),
      get_y_axis_index axis = none → p.y_limits' limits cond axis = (p, [])) ∧
    (∀ (p : Plot) (cell : Nat) (axis : Axis) (i : Nat) (hi : i < 3),
      get_x_axis_index axis = some i →
      p.linked_x_limits cell axis =
        ({ p with x_limits := p.x_limits.set ⟨i, hi⟩ (some (.Linked cell)) }, [])) ∧
    (∀ (p : Plot) (cell : Nat) (axis : Axis),
      get_x_axis_index axis = none → p.linked_x_limits cell axis = (p, [])) ∧
    (∀ (p : Plot) (cell : Nat) (axis : Axis) (i : Nat)
      (hv : axis.val - Axis.Y1.val < 3), get_y_axis_index axis = some i →
      p.linked_y_limits cell axis =
        ({ p with
            y_limits := p.y_limits.set ⟨axis.val - Axis.Y1.val, hv⟩
              (some (.Linked cell)) },
          [])) ∧
    (∀ (p : Plot) (cell : Nat) (axis : Axis),
      get_y_axis_index axis = none → p.linked_y_limits cell axis = (p, [])) ∧
    (∀ (p : Plot) (axis : Axis) (ticks : List F64) (sd : Bool)
      (i : Nat) (hi : i < 3), get_x_axis_index axis = some i →
      p.x_ticks axis ticks sd =
        ({ p with
            x_tick_positions := p.x_tick_positions.set ⟨i, hi⟩ (some ticks)
            show_x_default_ticks := p.show_x_default_ticks.set ⟨i, hi⟩ sd }, [])) ∧
    (∀ (p : Plot) (axis : Axis) (ticks : List F64) (sd : Bool),
      get_x_axis_index axis = none → p.x_ticks axis ticks sd = (p, [])) ∧
    (∀ (p : Plot) (axis : Axis) (ticks : List F64) (sd : Bool)
      (i : Nat) (hi : i < 3), get_y_axis_index axis = some i →
      p.y_ticks axis ticks sd =
        ({ p with
            y_tick_positions := p.y_tick_positions.set ⟨i, hi⟩ (some ticks)
            show_y_default_ticks := p.show_y_default_ticks.set ⟨i, hi⟩ sd }, [])) ∧
    (∀ (p : Plot) (axis : Axis) (ticks : List F64) (sd : Bool),
      get_y_axis_index axis = none → p.y_ticks axis ticks sd = (p, [])) ∧
    (∀ (p : Plot) (axis : Axis) (tickLabels : List (F64 × List Nat)) (sd : Bool)
      (q : Plot) (calls : List FCall),
      p.x_ticks_with_labels axis tickLabels sd = .ok (q, calls) →
      calls = [] ∧ q = { p with
        x_tick_positions := q.x_tick_positions
        x_tick_labels := q.x_tick_labels
        show_x_default_ticks := q.show_x_default_ticks }) ∧
    (∀ (p : Plot) (axis : Axis) (tickLabels : List (F64 × List Nat)) (sd : Bool)
      (q : Plot) (calls : List FCall),
      p.y_ticks_with_labels axis tickLabels sd = .ok (q, calls) →
      calls = [] ∧ q = { p with
        y_tick_positions := q.y_tick_positions
        y_tick_labels := q.y_tick_labels
        show_y_default_ticks := q.show_y_default_ticks }) ∧
    (∀ (p : Plot) (flags : Nat),
      p.with_plot_flags flags = ({ p with plot_flags := flags }, [])) ∧
    (∀ (p : Plot) (axis : Axis) (flags : Nat) (i : Nat) (hi : i < 3),
      get_x_axis_index axis = some i →
      p.with_x_axis_flags axis flags =
        ({ p with x_flags := p.x_flags.set ⟨i, hi⟩ flags }, [])) ∧
    (∀ (p : Plot) (axis : Axis) (flags : Nat),
      get_x_axis_index axis = none → p.with_x_axis_flags axis flags = (p, [])) ∧
    (∀ (p : Plot) (axis : Axis) (flags : Nat) (i : Nat) (hi : i < 3),
      get_y_axis_index axis = some i →
      p.with_y_axis_flags axis flags =
        ({ p with y_flags := p.y_flags.set ⟨i, hi⟩ flags }, [])) ∧
    (∀ (p : Plot) (axis : Axis) (flags : Nat),
      get_y_axis_index axis = none → p.with_y_axis_flags axis flags = (p, [])) ∧
    (∀ (p : Plot) (location : Nat) (flags : Nat),
      p.with_legend_location location flags =
        ({ p with legend_configuration := some (location, flags) }, [])) := by
  refine ⟨fun _ _ => rfl, ?_, ?_, ?_, ?_, ?_, ?_, ?_, ?_, ?_, ?_, ?_, ?_, ?_, ?_,
    ?_, ?_, fun _ _ => rfl, ?_, ?_, ?_, ?_, fun _ _ _ => rfl⟩
  · intro p s q calls h
    by_cases hc : (0 : Nat) ∈ s <;>
      simp_all [Plot.x_label', CString.new, bind, Except.bind]
  · intro p s q calls h
    by_cases hc : (0 : Nat) ∈ s <;>
      simp_all [Plot.y_label', CString.new, bind, Except.bind]
  · intro p limits cond axis i hi h
    simp only [Plot.x_limits']
    split
    · rename_i i' heq
      rw [h] at heq
      injection heq with hii
      subst hii
      rfl
    · rename_i heq
      rw [h] at heq
      simp at heq
  · intro p limits cond axis h
    simp only [Plot.x_limits']
    split
    · rename_i i' heq
      rw [h] at heq
      simp at heq
    · rfl
  · intro p limits cond axis i hi h
    simp only [Plot.y_limits']
    split
    · rename_i i' heq
      rw [h] at heq
      injection heq with hii
      subst hii
      rfl
    · rename_i heq
      rw [h] at heq
      simp at heq
  · intro p limits cond axis h
    simp only [Plot.y_limits']
    split
    · rename_i i' heq
      rw [h] at heq
      simp at heq
    · rfl
  · intro p cell axis i hi h
    simp only [Plot.linked_x_limits]
    split
    · rename_i i' heq
      rw [h] at heq
      injection heq with hii
      subst hii
      rfl
    · rename_i heq
      rw [h] at heq
      simp at heq
  · intro p cell axis h
    simp only [Plot.linked_x_limits]
    split
    · rename_i i' heq
      rw [h] at heq
      simp at heq
    · rfl
  · intro p cell axis i hv h
    simp only [Plot.linked_y_limits]
    split
    · rfl
    · rename_i heq
      rw [h] at heq
      simp at heq
  · intro p cell axis h
    simp only [Plot.linked_y_limits]
    split
    · rename_i i' heq
      rw [h] at heq
      simp at heq
    · rfl
  · intro p axis ticks sd i hi h
    simp only [Plot.x_ticks]
    split
    · rename_i i' heq
      rw [h] at heq
      injection heq with hii
      subst hii
      rfl
    · rename_i heq
      rw [h] at heq
      simp at heq
  · intro p axis ticks sd h
    simp only [Plot.x_ticks]
    split
    · rename_i i' heq
      rw [h] at heq
      simp at heq
    · rfl
  · intro p axis ticks sd i hi h
    simp only [Plot.y_ticks]
    split
    · rename_i i' heq
      rw [h] at heq
      injection heq with hii
      subst hii
      rfl
    · rename_i heq
      rw [h] at heq
      simp at heq
  · intro p axis ticks sd h
    simp only [Plot.y_ticks]
    split
    · rename_i i' heq
      rw [h] at heq
      simp at heq
    · rfl
  · intro p axis tickLabels sd q calls h
    simp only [Plot.x_ticks_with_labels, collectTickLabels_eq, bind, Except.bind] at h
    split at h
    · split at h
      · exact Except.noConfusion h
      · injection h with h'
        injection h' with hq hcalls
        subst hcalls
        subst hq
        exact ⟨rfl, rfl⟩
    · injection h with h'
      injection h' with hq hcalls
      subst hcalls
      subst hq
      exact ⟨rfl, rfl⟩
  · intro p axis tickLabels sd q calls h
    simp only [Plot.y_ticks_with_labels, collectTickLabels_eq, bind, Except.bind] at h
    split at h
    · split at h
      · exact Except.noConfusion h
      · injection h with h'
        injection h' with hq hcalls
        subst hcalls
        subst hq
        exact ⟨rfl, rfl⟩
    · injection h with h'
      injection h' with hq hcalls
      subst hcalls
      subst hq
      exact ⟨rfl, rfl⟩
  · intro p axis flags i hi h
    simp only [Plot.with_x_axis_flags]
    split
    · rename_i i' heq
      rw [h] at heq
      injection heq with hii
      subst hii
      rfl
    · rename_i heq
      rw [h] at heq
      simp at heq
  · intro p axis flags h
    simp only [Plot.with_x_axis_flags]
    split
    · rename_i i' heq
      rw [h] at heq
      simp at heq
    · rfl
  · intro p axis flags i hi h
    simp only [Plot.with_y_axis_flags]
    split
    · rename_i i' heq
      rw [h] at heq
      injection heq with hii
      subst hii
      rfl
    · rename_i heq
      rw [h] at heq
      simp at heq
  · intro p axis flags h
    simp only [Plot.with_y_axis_flags]
    split
    · rename_i i' heq
      rw [h] at heq
      simp at heq
    · rfl

/-- Witness for C5: `x_limits` on the second X axis of the default builder
updates only the second X-limit slot and issues no foreign call. -/
theorem setters_only_accumulate_witness :
    emptyPlot.x_limits' ⟨0, 1⟩ 1 Axis.X2 =
      ({ emptyPlot with
          x_limits := emptyPlot.x_limits.set ⟨1, by decide⟩
            (some (.Single ⟨0, 1⟩ 1)) },
        []) :=
  setters_only_accumulate.2.2.2.1 emptyPlot ⟨0, 1⟩ 1 Axis.X2 1 (by decide) rfl

end Implot

namespace Implot

/-- C9: The axis/index conversions round-trip: each X axis maps to an index
`< 3` that maps back to it, `get_x_axis_index` is `none` exactly on Y axes,
and symmetrically for the Y-axis functions.  Stated as the full enumeration
over the six-element `Axis` type. -/
theorem axis_index_round_trip :
    get_x_axis_index Axis.X1 = some 0 ∧ get_x_axis_from_index 0 = some Axis.X1 ∧
    get_x_axis_index Axis.X2 = some 1 ∧ get_x_axis_from_index 1 = some Axis.X2 ∧
    get_x_axis_index Axis.X3 = some 2 ∧ get_x_axis_from_index 2 = some Axis.X3 ∧
    get_x_axis_index Axis.Y1 = none ∧
    get_x_axis_index Axis.Y2 = none ∧
    get_x_axis_index Axis.Y3 = none ∧
    get_y_axis_index Axis.Y1 = some 0 ∧ get_y_axis_from_index 0 = some Axis.Y1 ∧
    get_y_axis_index Axis.Y2 = some 1 ∧ get_y_axis_from_index 1 = some Axis.Y2 ∧
    get_y_axis_index Axis.Y3 = some 2 ∧ get_y_axis_from_index 2 = some Axis.Y3 ∧
    get_y_axis_index Axis.X1 = none ∧
    get_y_axis_index Axis.X2 = none ∧
    get_y_axis_index Axis.X3 = none := by
  decide

end Implot

namespace Implot

/-- `all` over a mapped list, for heterogeneous map functions. -/
theorem all_map_comp {α β : Type} (f : α → β) (l : List α) (p : β → Bool) :
    (l.map f).all p = l.all (fun a => p (f a)) := by
  induction l with
  | nil => rfl
  | cons a l ih => simp [List.all_cons, ih]

/-- Setting one slot of a tick-label array to a valid label vector preserves
validity of the whole array. -/
theorem tickLabelsOk_set (t : Triple (Option (List CString))) (i : Fin 3)
    (v : Option (List CString)) (ht : tickLabelsOk t = true)
    (hv : labelsOk v = true) : tickLabelsOk (t.set i v) = true := by
  rcases t with ⟨a0, a1, a2⟩
  fin_cases i <;> simp_all [Triple.set, tickLabelsOk, Bool.and_eq_true]

/-- C7: Every stored label is a byte string with no interior null bytes (so
its `as_ptr` view `withTerminator` is a valid null-terminated string): the
invariant holds after `Plot::new`, is preserved by every builder setter, and
every plot element constructor stores a null-free label; `withTerminator` of
a valid label appends exactly one terminating null. -/
theorem stored_labels_always_null_terminated :
    (∀ (c : CString), c.valid → (∀ b ∈ c.bytes, b ≠ 0) ∧
      c.withTerminator = c.bytes ++ [0]) ∧
    (∀ (s : List Nat) (p : Plot), Plot.new s = .ok p → p.labelsValid = true) ∧
    (∀ (p : Plot) (sz : F32 × F32), p.labelsValid = true →
      (p.size' sz).1.labelsValid = true) ∧
    (∀ (p : Plot) (s : List Nat) (q : Plot) (calls : List FCall),
      p.labelsValid = true → p.x_label' s = .ok (q, calls) →
      q.labelsValid = true) ∧
    (∀ (p : Plot) (s : List Nat) (q : Plot) (calls : List FCall),
      p.labelsValid = true → p.y_label' s = .ok (q, calls) →
      q.labelsValid = true) ∧
    (∀ (p : Plot) (limits : ImPlotRange) (cond : Nat) (axis : Axis),
      p.labelsValid = true → (p.x_limits' limits cond axis).1.labelsValid = true) ∧
    (∀ (p : Plot) (limits : ImPlotRange) (cond : Nat) (axis : Axis),
      p.labelsValid = true → (p.y_limits' limits cond axis).1.labelsValid = true) ∧
    (∀ (p : Plot) (cell : Nat) (axis : Axis),
      p.labelsValid = true → (p.linked_x_limits cell axis).1.labelsValid = true) ∧
    (∀ (p : Plot) (cell : Nat) (axis : Axis),
      p.labelsValid = true → (p.linked_y_limits cell axis).1.labelsValid = true) ∧
    (∀ (p : Plot) (axis : Axis) (ticks : List F64) (sd : Bool),
      p.labelsValid = true → (p.x_ticks axis ticks sd).1.labelsValid = true) ∧
    (∀ (p : Plot) (axis : Axis) (ticks : List F64) (sd : Bool),
      p.labelsValid = true → (p.y_ticks axis ticks sd).1.labelsValid = true) ∧
    (∀ (p : Plot) (axis : Axis) (tickLabels : List (F64 × List Nat)) (sd : Bool)
      (q : Plot) (calls : List FCall), p.labelsValid = true →
      p.x_ticks_with_labels axis tickLabels sd = .ok (q, calls) →
      q.labelsValid = true) ∧
    (∀ (p : Plot) (axis : Axis) (tickLabels : List (F64 × List Nat)) (sd : Bool)
      (q : Plot) (calls : List FCall), p.labelsValid = true →
      p.y_ticks_with_labels axis tickLabels sd = .ok (q, calls) →
      q.labelsValid = true) ∧
    (∀ (p : Plot) (flags : Nat),
      p.labelsValid = true → (p.with_plot_flags flags).1.labelsValid = true) ∧
    (∀ (p : Plot) (axis : Axis) (flags : Nat),
      p.labelsValid = true → (p.with_x_axis_flags axis flags).1.labelsValid = true) ∧
    (∀ (p : Plot) (axis : Axis) (flags : Nat),
      p.labelsValid = true → (p.with_y_axis_flags axis flags).1.labelsValid = true) ∧
    (∀ (p : Plot) (location flags : Nat),
      p.labelsValid = true →
      (p.with_legend_location location flags).1.labelsValid = true) ∧
    (∀ (s : List Nat) (flags : Nat) (l : PlotLine),
      PlotLine.new_with_flags s flags = .ok l → l.label.valid) ∧
    (∀ (s : List Nat) (flags : Nat) (l : PlotStairs),
      PlotStairs.new_with_flags s flags = .ok l → l.label.valid) ∧
    (∀ (s : List Nat) (flags : Nat) (l : PlotScatter),
      PlotScatter.new_with_flags s flags = .ok l → l.label.valid) ∧
    (∀ (s : List Nat) (flags : Nat) (l : PlotBars),
      PlotBars.new_with_flags s flags = .ok l → l.label.valid) ∧
    (∀ (s : List Nat) (flags : Nat) (l : PlotText),
      PlotText.new_with_flags s flags = .ok l → l.label.valid) ∧
    (∀ (s : List Nat) (flags : Nat) (l : PlotHeatmap),
      PlotHeatmap.new_with_flags s flags = .ok l → l.label.valid) ∧
    (∀ (s : List Nat) (flags : Nat) (l : PlotStems),
      PlotStems.new_with_flags s flags = .ok l → l.label.valid) := by
  refine ⟨?_, ?_, ?_, ?_, ?_, ?_, ?_, ?_, ?_, ?_, ?_, ?_, ?_, ?_, ?_, ?_, ?_,
    ?_, ?_, ?_, ?_, ?_, ?_, ?_⟩
  · intro c hcv
    refine ⟨?_, rfl⟩
    intro b hb hb0
    subst hb0
    have hnot : (0 : Nat) ∉ c.bytes := by
      intro hmem
      have : c.bytes.contains 0 = true := by
        simpa [List.elem_eq_mem] using hmem
      rw [CString.valid] at hcv
      rw [hcv] at this
      cases this
    exact hnot hb
  · intro s p h
    by_cases hc : (0 : Nat) ∈ s
    · simp [Plot.new, CString.new, hc, bind, Except.bind] at h
    · simp [Plot.new, CString.new, hc, bind, Except.bind] at h
      subst h
      simp [Plot.labelsValid, hc, tickLabelsOk, labelsOk, Triple.const,
        List.elem_eq_mem]
  · intro p sz hv
    exact hv
  · intro p s q calls hv h
    by_cases hc : (0 : Nat) ∈ s
    · simp [Plot.x_label', CString.new, hc, bind, Except.bind] at h
    · simp [Plot.x_label', CString.new, hc, bind, Except.bind] at h
      obtain ⟨hq, -⟩ := h
      subst hq
      simp only [Plot.labelsValid, Bool.and_eq_true] at hv ⊢
      obtain ⟨⟨⟨⟨h1, h2⟩, h3⟩, h4⟩, h5⟩ := hv
      refine ⟨⟨⟨⟨h1, ?_⟩, h3⟩, h4⟩, h5⟩
      simp [hc, List.elem_eq_mem]
  · intro p s q calls hv h
    by_cases hc : (0 : Nat) ∈ s
    · simp [Plot.y_label', CString.new, hc, bind, Except.bind] at h
    · simp [Plot.y_label', CString.new, hc, bind, Except.bind] at h
      obtain ⟨hq, -⟩ := h
      subst hq
      simp only [Plot.labelsValid, Bool.and_eq_true] at hv ⊢
      obtain ⟨⟨⟨⟨h1, h2⟩, h3⟩, h4⟩, h5⟩ := hv
      refine ⟨⟨⟨⟨h1, h2⟩, ?_⟩, h4⟩, h5⟩
      simp [hc, List.elem_eq_mem]
  · intro p limits cond axis hv
    simp only [Plot.x_limits']
    split
    · exact hv
    · exact hv
  · intro p limits cond axis hv
    simp only [Plot.y_limits']
    split
    · exact hv
    · exact hv
  · intro p cell axis hv
    simp only [Plot.linked_x_limits]
    split
    · exact hv
    · exact hv
  · intro p cell axis hv
    simp only [Plot.linked_y_limits]
    split
    · exact hv
    · exact hv
  · intro p axis ticks sd hv
    simp only [Plot.x_ticks]
    split
    · exact hv
    · exact hv
  · intro p axis ticks sd hv
    simp only [Plot.y_ticks]
    split
    · exact hv
    · exact hv
  · intro p axis tickLabels sd q calls hv h
    simp only [Plot.x_ticks_with_labels, collectTickLabels_eq, bind,
      Except.bind] at h
    split at h
    · split at h
      · exact Except.noConfusion h
      · rename_i v heq
        injection h with h'
        injection h' with hq hcalls
        subst hq
        by_cases hall : tickLabels.all (fun pair => !pair.2.contains 0)
        · rw [if_pos hall] at heq
          injection heq with hv'
          simp only [Plot.labelsValid, Bool.and_eq_true] at hv ⊢
          obtain ⟨⟨⟨⟨h1, h2⟩, h3⟩, h4⟩, h5⟩ := hv
          refine ⟨⟨⟨⟨h1, h2⟩, h3⟩, ?_⟩, h5⟩
          refine tickLabelsOk_set _ _ _ h4 ?_
          rw [← hv']
          simp only [labelsOk, all_map_comp]
          exact hall
        · rw [if_neg hall] at heq
          exact Except.noConfusion heq
    · injection h with h'
      injection h' with hq hcalls
      subst hq
      exact hv
  · intro p axis tickLabels sd q calls hv h
    simp only [Plot.y_ticks_with_labels, collectTickLabels_eq, bind,
      Except.bind] at h
    split at h
    · split at h
      · exact Except.noConfusion h
      · rename_i v heq
        injection h with h'
        injection h' with hq hcalls
        subst hq
        by_cases hall : tickLabels.all (fun pair => !pair.2.contains 0)
        · rw [if_pos hall] at heq
          injection heq with hv'
          simp only [Plot.labelsValid, Bool.and_eq_true] at hv ⊢
          obtain ⟨⟨⟨⟨h1, h2⟩, h3⟩, h4⟩, h5⟩ := hv
          refine ⟨⟨⟨⟨h1, h2⟩, h3⟩, h4⟩, ?_⟩
          refine tickLabelsOk_set _ _ _ h5 ?_
          rw [← hv']
          simp only [labelsOk, all_map_comp]
          exact hall
        · rw [if_neg hall] at heq
          exact Except.noConfusion heq
    · injection h with h'
      injection h' with hq hcalls
      subst hq
      exact hv
  · intro p flags hv
    exact hv
  · intro p axis flags hv
    simp only [Plot.with_x_axis_flags]
    split
    · exact hv
    · exact hv
  · intro p axis flags hv
    simp only [Plot.with_y_axis_flags]
    split
    · exact hv
    · exact hv
  · intro p location flags hv
    exact hv
  · intro s flags l h
    by_cases hc : (0 : Nat) ∈ s
    · simp [PlotLine.new_with_flags, CString.new, hc, bind, Except.bind] at h
    · simp [PlotLine.new_with_flags, CString.new, hc, bind, Except.bind] at h
      subst h
      simp [CString.valid, List.elem_eq_mem, hc]
  · intro s flags l h
    by_cases hc : (0 : Nat) ∈ s
    · simp [PlotStairs.new_with_flags, CString.new, hc, bind, Except.bind] at h
    · simp [PlotStairs.new_with_flags, CString.new, hc, bind, Except.bind] at h
      subst h
      simp [CString.valid, List.elem_eq_mem, hc]
  · intro s flags l h
    by_cases hc : (0 : Nat) ∈ s
    · simp [PlotScatter.new_with_flags, CString.new, hc, bind, Except.bind] at h
    · simp [PlotScatter.new_with_flags, CString.new, hc, bind, Except.bind] at h
      subst h
      simp [CString.valid, List.elem_eq_mem, hc]
  · intro s flags l h
    by_cases hc : (0 : Nat) ∈ s
    · simp [PlotBars.new_with_flags, CString.new, hc, bind, Except.bind] at h
    · simp [PlotBars.new_with_flags, CString.new, hc, bind, Except.bind] at h
      subst h
      simp [CString.valid, List.elem_eq_mem, hc]
  · intro s flags l h
    by_cases hc : (0 : Nat) ∈ s
    · simp [PlotText.new_with_flags, CString.new, hc, bind, Except.bind] at h
    · simp [PlotText.new_with_flags, CString.new, hc, bind, Except.bind] at h
      subst h
      simp [CString.valid, List.elem_eq_mem, hc]
  · intro s flags l h
    by_cases hc : (0 : Nat) ∈ s
    · simp [PlotHeatmap.new_with_flags, CString.new, hc, bind, Except.bind] at h
    · simp [PlotHeatmap.new_with_flags, CString.new, hc, bind, Except.bind] at h
      subst h
      simp [CString.valid, List.elem_eq_mem, hc]
  · intro s flags l h
    by_cases hc : (0 : Nat) ∈ s
    · simp [PlotStems.new_with_flags, CString.new, hc, bind, Except.bind] at h
    · simp [PlotStems.new_with_flags, CString.new, hc, bind, Except.bind] at h
      subst h
      simp [CString.valid, List.elem_eq_mem, hc]

/-- Witness for C7: the invariant holds on `Plot::new("a")`'s builder and is
kept by a label update. -/
theorem stored_labels_always_null_terminated_witness :
    ({ emptyPlot with title := ⟨[97]⟩ } : Plot).labelsValid = true :=
  stored_labels_always_null_terminated.2.1 [97]
    { emptyPlot with title := ⟨[97]⟩ } rfl

end Implot
